import Mathlib

/-!
Verification development for the `certify` repository (IPO document
verification backend).  The Python sources under `backend/app` are shallowly
embedded below: pure data-shaping code becomes Lean functions over explicit
data types, stateful code becomes explicit state passing, network / LLM /
database effects become oracle parameters (`Except String _` outcomes
supplied by the environment), and Python floats become `ℚ`.

Embedded sources:
  * `app/services/vector_store.py`        (`search_similar`, `search_hybrid`)
  * `app/services/verification_service.py`
        (`verify_sentence`, `_parse_verification_response`,
         `_rerank_chunks`, `_find_matching_chunk`)
  * `app/tasks/verification_tasks.py`     (`_run_verification_async` loop)
  * `app/tasks/document_tasks.py`         (`_index_document_async`,
         `index_document_task` retry policy)
-/

namespace Certify

/-- Verdict enum for a verified sentence.  Modelled from the spec:
`app/db/models.py` (class `ValidationResult`) is not in the sources; the spec
(§3) and the string table `validation_map` in
`verification_service._parse_verification_response` fix its three values
VALIDATED, UNCERTAIN, INCORRECT. -/
inductive ValidationResult where
  | VALIDATED
  | UNCERTAIN
  | INCORRECT
deriving DecidableEq, Repr

/-- Status enum for a verification job.  Modelled from the spec:
`app/db/models.py` (class `VerificationStatus`) is not in the sources; the
spec (§3, §4.4) fixes the four states PENDING, PROCESSING, COMPLETED,
FAILED. -/
inductive VerificationStatus where
  | PENDING
  | PROCESSING
  | COMPLETED
  | FAILED
deriving DecidableEq, Repr

/-- A retrieval-result dict as built by `vector_store.search_similar` /
`search_hybrid` and consumed by `verification_service` (keys `content`,
`document_id`, `chunk_id`, `page_number`, `start_char`, `end_char`,
`filename`, `document_type`, `similarity`, `source`). -/
structure Chunk where
  content : String
  document_id : String
  chunk_id : Option String
  page_number : Option Int
  start_char : Option Int
  end_char : Option Int
  filename : String
  document_type : String
  similarity : ℚ
  source : String
deriving DecidableEq, Repr

/-- One Weaviate query hit: the stored properties together with the optional
`metadata.distance` value (`obj.properties` / `obj.metadata.distance` in
`vector_store.py`). -/
structure SearchObj where
  content : String
  document_id : String
  chunk_id : Option String
  page_number : Option Int
  start_char : Option Int
  end_char : Option Int
  filename : String
  document_type : String
  distance : Option ℚ
deriving DecidableEq, Repr

/-- The result dict literal shared by `search_similar` and `search_hybrid`
(`vector_store.py` lines 239-250 and 303-314): copy the stored properties and
attach a similarity and a source tag. -/
def mkChunk (obj : SearchObj) (similarity : ℚ) (source : String) : Chunk :=
  { content := obj.content
    document_id := obj.document_id
    chunk_id := obj.chunk_id
    page_number := obj.page_number
    start_char := obj.start_char
    end_char := obj.end_char
    filename := obj.filename
    document_type := obj.document_type
    similarity := similarity
    source := source }

/-- Embeds `vector_store.search_similar`, result-processing loop (lines 229-256):
a hit without a distance is skipped (`continue`), otherwise
`similarity = 1 - distance` and the hit is kept only when
`similarity >= min_similarity`.  The Weaviate response is the oracle input
`objs`. -/
def search_similar (min_similarity : ℚ) (objs : List SearchObj) : List Chunk :=
  objs.filterMap fun obj =>
    match obj.distance with
    | none => none
    | some distance =>
      let similarity := 1 - distance
      if min_similarity ≤ similarity then
        some (mkChunk obj similarity "semantic")
      else
        none

/-- Embeds `vector_store.search_hybrid`, result-processing loop (lines 290-314):
a hit without a distance is kept with similarity `0.0` and source tag
`hybrid_keyword_only`; otherwise `similarity = 1 - distance` with source tag
`hybrid`.  No threshold filtering happens here. -/
def search_hybrid (objs : List SearchObj) : List Chunk :=
  objs.map fun obj =>
    match obj.distance with
    | none => mkChunk obj 0 "hybrid_keyword_only"
    | some distance => mkChunk obj (1 - distance) "hybrid"

/-- Concrete Weaviate hit with a distance, used in witnesses. -/
def demoObjA : SearchObj :=
  { content := "alpha", document_id := "d1", chunk_id := some "c1",
    page_number := some 1, start_char := some 0, end_char := some 5,
    filename := "a.pdf", document_type := "main", distance := some (1/10) }

/-- Concrete Weaviate hit without a distance, used in witnesses. -/
def demoObjB : SearchObj :=
  { content := "beta", document_id := "d1", chunk_id := some "c2",
    page_number := some 2, start_char := some 5, end_char := some 9,
    filename := "a.pdf", document_type := "main", distance := none }

/-- One citation dict inside the JSON returned by the classifier
(`verification_service` prompt template: keys `document`, `page`, `quote`,
`relevance`); every field may be absent. -/
structure RawCitation where
  document : Option String
  page : Option Int
  quote : Option String
  relevance : Option String
deriving DecidableEq, Repr

/-- The JSON object extracted from the classifier response by
`_parse_verification_response` (keys `validation_result`,
`confidence_score`, `reasoning`, `citations`); every field may be absent. -/
structure RawResult where
  validation_result : Option String
  confidence_score : Option ℚ
  reasoning : Option String
  citations : List RawCitation
deriving DecidableEq, Repr

/-- A classifier response as seen by `_parse_verification_response`:
either a JSON object was extracted and loaded (`jsonOk`), or the regex
found no JSON object in the text (`noJson`, the fallback-parsing branch at
lines 217-223), or extracting/processing the response raised
(`malformed`, the `except` branch at lines 268-275). -/
inductive LLMResponse where
  | jsonOk (r : RawResult)
  | noJson (text : String)
  | malformed (text : String)
deriving DecidableEq, Repr

/-- The citation dict stored by `_parse_verification_response`
(lines 248-259). -/
structure Citation where
  document_id : String
  cited_text : String
  page_number : Option Int
  start_char : Option Int
  end_char : Option Int
  similarity_score : ℚ
  context_before : String
  context_after : String
  filename : String
  relevance : String
deriving DecidableEq, Repr

/-- The structured result of `verify_sentence` /
`_parse_verification_response`. -/
structure VerificationResult where
  validation_result : ValidationResult
  confidence_score : ℚ
  reasoning : String
  citations : List Citation
deriving DecidableEq, Repr

/-- Python's `str.upper` (ASCII): `String.toUpper`, written as an explicit
list map so that it evaluates by kernel reduction. -/
def pyUpper (s : String) : String :=
  String.mk (s.toList.map Char.toUpper)

/-- Python's `str.lower` (ASCII): `String.toLower`, written as an explicit
list map so that it evaluates by kernel reduction. -/
def pyLower (s : String) : String :=
  String.mk (s.toList.map Char.toLower)

/-- Python's builtin `min` on two floats. -/
def pymin (a b : ℚ) : ℚ := if a ≤ b then a else b

/-- Python's builtin `max` on two floats. -/
def pymax (a b : ℚ) : ℚ := if a ≤ b then b else a

/-- Python's `needle in hay` substring test on strings. -/
def strContains (needle hay : String) : Bool :=
  decide (needle.toList <:+: hay.toList)

/-- Loop condition of `_find_matching_chunk` (lines 352-355): the citation's
`document` name (lowercased, empty when absent) must be non-empty (Python
truthiness of `doc_name`) and a substring of the chunk's lowercased
filename, and when the citation carries a page the chunk's page must equal
it exactly. -/
def citationMatches (citation : RawCitation) (chunk : Chunk) : Bool :=
  let doc_name := pyLower (citation.document.getD "")
  (!(doc_name = "")) && strContains doc_name (pyLower chunk.filename) &&
    (match citation.page with
     | none => true
     | some p => chunk.page_number == some p)

/-- Embeds `verification_service._find_matching_chunk` (lines 337-358): return the
first chunk matching the citation, else fall back to `chunks[0]` (or `None`
when the candidate list is empty). -/
def find_matching_chunk (citation : RawCitation) (chunks : List Chunk) :
    Option Chunk :=
  match chunks.find? (fun chunk => citationMatches citation chunk) with
  | some chunk => some chunk
  | none => chunks.head?

/-- The stored-citation dict built at lines 248-259 from a raw citation and
its matching chunk: `cited_text` defaults to the first 200 characters of the
chunk content when the citation has no quote. -/
def mkCitation (citation : RawCitation) (matching_chunk : Chunk) : Citation :=
  { document_id := matching_chunk.document_id
    cited_text := citation.quote.getD (matching_chunk.content.take 200)
    page_number := matching_chunk.page_number
    start_char := matching_chunk.start_char
    end_char := matching_chunk.end_char
    similarity_score := matching_chunk.similarity
    context_before := ""
    context_after := ""
    filename := matching_chunk.filename
    relevance := citation.relevance.getD "" }

/-- The `validation_map` dict lookup at lines 226-230. -/
def validation_map (s : String) : Option ValidationResult :=
  if s = "VALIDATED" then some ValidationResult.VALIDATED
  else if s = "UNCERTAIN" then some ValidationResult.UNCERTAIN
  else if s = "INCORRECT" then some ValidationResult.INCORRECT
  else none

/-- Normal-path processing of the loaded JSON dict in
`_parse_verification_response` (lines 225-266): map the verdict string
(uppercased, default `"UNCERTAIN"`, unknown values fall back to UNCERTAIN),
clamp the confidence (default `0.5`) into `[0,1]`, and keep exactly the
citations that resolve to a matching chunk. -/
def parse_result_dict (result : RawResult) (chunks : List Chunk) :
    VerificationResult :=
  let validation_result :=
    (validation_map (pyUpper (result.validation_result.getD "UNCERTAIN"))).getD
      ValidationResult.UNCERTAIN
  let confidence := pymax 0 (pymin 1 (result.confidence_score.getD (1/2)))
  let citations := result.citations.filterMap fun citation =>
    (find_matching_chunk citation chunks).map fun matching_chunk =>
      mkCitation citation matching_chunk
  { validation_result := validation_result
    confidence_score := confidence
    reasoning := result.reasoning.getD ""
    citations := citations }

/-- Embeds `verification_service._parse_verification_response` (lines 197-275).
When no JSON object is found, the fallback dict
`{"validation_result": "UNCERTAIN", "confidence_score": 0.5, "reasoning":
response, "citations": []}` flows through the normal path; when
extraction/processing raises, the `except` branch returns UNCERTAIN with
confidence `0.5`, the raw response text as reasoning, and no citations. -/
def parse_verification_response (response : LLMResponse)
    (chunks : List Chunk) : VerificationResult :=
  match response with
  | .jsonOk r => parse_result_dict r chunks
  | .noJson text =>
      parse_result_dict
        { validation_result := some "UNCERTAIN"
          confidence_score := some (1/2)
          reasoning := some text
          citations := [] } chunks
  | .malformed text =>
      { validation_result := ValidationResult.UNCERTAIN
        confidence_score := 1/2
        reasoning := text
        citations := [] }

/-- Concrete evidence chunk with a low similarity, used in witnesses. -/
def demoChunkLow : Chunk :=
  { content := "alpha", document_id := "d1", chunk_id := some "c1",
    page_number := some 1, start_char := some 0, end_char := some 5,
    filename := "a.pdf", document_type := "main", similarity := 1/2,
    source := "semantic" }

/-- Concrete evidence chunk with a high similarity, used in witnesses. -/
def demoChunkHigh : Chunk :=
  { content := "beta", document_id := "d2", chunk_id := some "c2",
    page_number := some 2, start_char := some 5, end_char := some 9,
    filename := "b.pdf", document_type := "supporting", similarity := 9/10,
    source := "semantic" }

/-- Concrete classifier citation whose document name matches no candidate
chunk, used in witnesses. -/
def demoCitationNoMatch : RawCitation :=
  { document := some "zzz", page := none, quote := some "a quote",
    relevance := some "r" }

/-- Concrete well-formed classifier response: verdict VALIDATED with an
empty citation list. -/
def demoValidatedNoCitations : RawResult :=
  { validation_result := some "VALIDATED", confidence_score := some (9/10),
    reasoning := some "fully supported", citations := [] }

/-- One step of the seen-set dedup idiom used twice in
`verification_service` (merge at lines 114-122, content dedup at lines
322-331): skip the chunk when its key was seen, else append it and record
the key. -/
def pyDedupStep {κ : Type} [BEq κ] (key : Chunk → κ)
    (acc : List Chunk × List κ) (c : Chunk) : List Chunk × List κ :=
  if acc.2.contains (key c) then acc
  else (acc.1 ++ [c], key c :: acc.2)

/-- The seen-set dedup loop: keep the first occurrence per key. -/
def pyDedup {κ : Type} [BEq κ] (key : Chunk → κ) (chunks : List Chunk) :
    List Chunk :=
  (chunks.foldl (pyDedupStep key) ([], [])).1

/-- The dedup-by-content pass of `_rerank_chunks` (lines 322-331); Python's
`hash(content)` seen-set is modelled as content equality (a collision-free
hash). -/
def dedupByContent (chunks : List Chunk) : List Chunk :=
  pyDedup (fun c => c.content) chunks

/-- The score-combination step of both rerank paths (lines 298 and 316):
`chunk["similarity"] = max(chunk.get("similarity", 0), score)`. -/
def applyRerankScore (c : Chunk) (s : ℚ) : Chunk :=
  { c with similarity := pymax c.similarity s }

/-- Which rerank backend ran and what it returned: the Cohere path yields
`(index, relevance_score)` pairs, the embedding-cosine fallback yields one
cosine score per chunk, and `failed` stands for any exception inside
`_rerank_chunks` (caught at lines 333-335, original chunks returned). -/
inductive RerankOutcome where
  | cohere (results : List (Nat × ℚ))
  | embedding (scores : List ℚ)
  | failed
deriving DecidableEq, Repr

/-- Embeds `verification_service._rerank_chunks` (lines 277-335).  An empty input
returns `[]` at once.  Cohere path: for each result `(index, score)` take
`chunks[index]` and combine scores (the service returns valid indices; an
out-of-range index would raise and land in `failed`).  Embedding fallback:
combine each chunk with its cosine score (`zip`-truncated like Python's
`zip`), sort by score descending (stable), drop the vectors.  Both paths
end with the dedup-by-content pass.  Any exception returns the input list
unchanged. -/
def rerank_chunks (outcome : RerankOutcome) (chunks : List Chunk) :
    List Chunk :=
  if chunks.isEmpty then []
  else
    match outcome with
    | .cohere results =>
        dedupByContent (results.filterMap fun r =>
          (chunks.get? r.1).map fun c => applyRerankScore c r.2)
    | .embedding scores =>
        dedupByContent
          ((((chunks.zip scores).map fun p =>
              (p.2, applyRerankScore p.1 p.2)).mergeSort
                fun a b => decide (b.1 ≤ a.1)).map fun p => p.2)
    | .failed => chunks

/-- The settings consumed by `verify_sentence`.  The values are read from
the environment (`app/core/config.py` does not pin them); the query limits
(`RERANK_CANDIDATES`, `SEMANTIC_TOP_K`, `KEYWORD_TOP_K`, `HYBRID_ALPHA`)
only shape the external store queries, whose results are oracle inputs
here. -/
structure RetrievalSettings where
  RERANK_CANDIDATES : Nat
  SEMANTIC_TOP_K : Nat
  KEYWORD_TOP_K : Nat
  MIN_SIMILARITY_THRESHOLD : ℚ
  HYBRID_ALPHA : ℚ
  RERANK_TOP_K : Nat
deriving DecidableEq, Repr

/-- Python's `a or b` for an optional int (`top_k or settings.RERANK_TOP_K`
at line 126): `None` and `0` both fall back. -/
def pyOrNat (a : Option Nat) (b : Nat) : Nat :=
  match a with
  | none => b
  | some n => if n = 0 then b else n

/-- The merge key at line 118: `chunk.get("chunk_id") or hash(chunk["content"])`
(`None` and the empty string are falsy, falling back to the content
hash, modelled as the content itself). -/
def chunkKey (c : Chunk) : String ⊕ String :=
  match c.chunk_id with
  | some s => if s = "" then Sum.inr c.content else Sum.inl s
  | none => Sum.inr c.content

/-- The merge-dedup loop of `verify_sentence` (lines 114-122): first
occurrence per `chunkKey` wins. -/
def mergeDedup (chunks : List Chunk) : List Chunk :=
  pyDedup chunkKey chunks

/-- The environment of one `verify_sentence` call: the outcomes of the two
vector-store queries (a raised exception or the hit lists), the rerank
backend outcome, and the Gemini call (a function of the evidence actually
passed to it, either raising or returning a response to parse). -/
structure VerifyEnv where
  semantic : Except String (List SearchObj)
  hybrid : Except String (List SearchObj)
  rerank : RerankOutcome
  classifier : List Chunk → Except String LLMResponse

/-- The evidence list `verify_sentence` ends up with before consulting the
classifier (lines 98-127): semantic results filtered by threshold, hybrid
results appended, merge-dedup, rerank, truncate to
`top_k or RERANK_TOP_K`. -/
def retrieved_candidates (s : RetrievalSettings) (top_k : Option Nat)
    (semantic_objs hybrid_objs : List SearchObj)
    (outcome : RerankOutcome) : List Chunk :=
  let semantic_chunks := search_similar s.MIN_SIMILARITY_THRESHOLD semantic_objs
  let hybrid_chunks := search_hybrid hybrid_objs
  let merged := mergeDedup (semantic_chunks ++ hybrid_chunks)
  let reranked := rerank_chunks outcome merged
  reranked.take (pyOrNat top_k s.RERANK_TOP_K)

/-- The early return of `verify_sentence` at lines 129-136 when no evidence
survives retrieval and reranking. -/
def no_evidence_result : VerificationResult :=
  { validation_result := ValidationResult.UNCERTAIN
    confidence_score := 0
    reasoning := "No supporting evidence found in the provided documents."
    citations := [] }

/-- The catch-all return of `verify_sentence` at lines 164-171. -/
def verification_error_result (e : String) : VerificationResult :=
  { validation_result := ValidationResult.UNCERTAIN
    confidence_score := 0
    reasoning := "Error during verification: " ++ e
    citations := [] }

/-- The `try` body of `verify_sentence` (lines 97-162): any stage raising
short-circuits to an error. -/
def verify_sentence_body (s : RetrievalSettings) (top_k : Option Nat)
    (env : VerifyEnv) : Except String VerificationResult :=
  match env.semantic with
  | .error e => .error e
  | .ok semantic_objs =>
    match env.hybrid with
    | .error e => .error e
    | .ok hybrid_objs =>
      let merged := retrieved_candidates s top_k semantic_objs hybrid_objs
        env.rerank
      if merged.isEmpty then .ok no_evidence_result
      else
        match env.classifier merged with
        | .error e => .error e
        | .ok response => .ok (parse_verification_response response merged)

/-- Embeds `verification_service.verify_sentence` (lines 78-171): the `try` body
wrapped in the catch-all `except` that converts any exception into an
UNCERTAIN result carrying the error message. -/
def verify_sentence (s : RetrievalSettings) (top_k : Option Nat)
    (env : VerifyEnv) : VerificationResult :=
  match verify_sentence_body s top_k env with
  | .ok r => r
  | .error e => verification_error_result e

/-- Concrete retrieval settings used in witnesses. -/
def demoSettings : RetrievalSettings :=
  { RERANK_CANDIDATES := 20, SEMANTIC_TOP_K := 20, KEYWORD_TOP_K := 10,
    MIN_SIMILARITY_THRESHOLD := 1/2, HYBRID_ALPHA := 1/2,
    RERANK_TOP_K := 10 }

/-- Concrete environment in which the semantic vector-store query raises,
used in witnesses. -/
def demoEnvFail : VerifyEnv :=
  { semantic := .error "boom", hybrid := .ok [], rerank := .failed,
    classifier := fun _ => .ok (.noJson "x") }

/-- One extracted sentence (`processed["sentences"]` entries consumed by
`_run_verification_async`: keys `index`, `content`, `page_number`,
`start_char`, `end_char`). -/
structure SentenceData where
  index : Nat
  content : String
  page_number : Option Int
  start_char : Option Int
  end_char : Option Int
deriving DecidableEq, Repr

/-- A `VerifiedSentence` row as constructed at
`verification_tasks.py` lines 189-200.  Modelled from the spec:
`app/db/models.py` is not in the sources; the fields are those assigned at
the construction site. -/
structure VerifiedSentence where
  verification_job_id : String
  sentence_index : Nat
  content : String
  page_number : Option Int
  start_char : Option Int
  end_char : Option Int
  validation_result : ValidationResult
  confidence_score : ℚ
  reasoning : String
  citations : List Citation
deriving DecidableEq, Repr

/-- The mutable fields of a `VerificationJob` row touched by
`_run_verification_async`.  Modelled from the spec: `app/db/models.py` is
not in the sources; §3 lists status, counters, and `progress ∈ [0,1]`
(timestamps and the error-message field are not needed by the claims). -/
structure VerificationJobState where
  status : VerificationStatus
  total_sentences : Nat
  verified_sentences : Nat
  progress : ℚ
  validated_count : Nat
  uncertain_count : Nat
  incorrect_count : Nat
deriving DecidableEq, Repr

/-- The state threaded through the sentence loop of
`_run_verification_async`: the job row, the `VerifiedSentence` rows added so
far, and the local counters of lines 172-175. -/
structure LoopState where
  job : VerificationJobState
  rows : List VerifiedSentence
  validated_count : Nat
  uncertain_count : Nat
  incorrect_count : Nat
  error_count : Nat
deriving DecidableEq, Repr

/-- The `VerifiedSentence` construction at lines 189-200. -/
def mkVerifiedSentence (job_id : String) (sd : SentenceData)
    (vr : VerificationResult) : VerifiedSentence :=
  { verification_job_id := job_id
    sentence_index := sd.index
    content := sd.content
    page_number := sd.page_number
    start_char := sd.start_char
    end_char := sd.end_char
    validation_result := vr.validation_result
    confidence_score := vr.confidence_score
    reasoning := vr.reasoning
    citations := vr.citations }

/-- Whether a per-sentence outcome is the `except` case of the loop body
(lines 237-241). -/
def outcomeFailed (oc : Except String VerificationResult) : Bool :=
  match oc with
  | .error _ => true
  | .ok _ => false

/-- One iteration of the sentence loop (lines 181-241).  On success: add the
row, bump the matching verdict counter, set `verified_sentences = idx + 1`
and `progress = (idx + 1) / total_sentences` (the division never runs on an
empty sentence list).  On a raised exception: bump the error counter and
continue — nothing else changes. -/
def process_sentence (job_id : String) (st : LoopState) (idx : Nat)
    (sd : SentenceData) (outcome : Except String VerificationResult) :
    LoopState :=
  match outcome with
  | .error _ => { st with error_count := st.error_count + 1 }
  | .ok vr =>
    let validated_count :=
      if vr.validation_result = ValidationResult.VALIDATED then
        st.validated_count + 1 else st.validated_count
    let uncertain_count :=
      if vr.validation_result = ValidationResult.UNCERTAIN then
        st.uncertain_count + 1 else st.uncertain_count
    let incorrect_count :=
      if vr.validation_result = ValidationResult.INCORRECT then
        st.incorrect_count + 1 else st.incorrect_count
    { st with
      rows := st.rows ++ [mkVerifiedSentence job_id sd vr]
      validated_count := validated_count
      uncertain_count := uncertain_count
      incorrect_count := incorrect_count
      job := { st.job with
        verified_sentences := idx + 1
        progress := (idx + 1 : ℚ) / st.job.total_sentences
        validated_count := validated_count
        uncertain_count := uncertain_count
        incorrect_count := incorrect_count } }

/-- The sentence loop from position `idx` on (Python's
`for idx, sentence_data in enumerate(sentences)`), over the remaining
sentences paired with their per-sentence outcomes (the classifier/DB
effects are oracle inputs). -/
def run_loop_from (job_id : String) :
    Nat → LoopState →
      List (SentenceData × Except String VerificationResult) → LoopState
  | _, st, [] => st
  | idx, st, p :: rest =>
      run_loop_from job_id (idx + 1)
        (process_sentence job_id st idx p.1 p.2) rest

/-- All intermediate loop states from position `idx` on, starting state
included (every persisted checkpoint is one of these states). -/
def loop_states_from (job_id : String) :
    Nat → LoopState →
      List (SentenceData × Except String VerificationResult) →
        List LoopState
  | _, st, [] => [st]
  | idx, st, p :: rest =>
      st :: loop_states_from job_id (idx + 1)
        (process_sentence job_id st idx p.1 p.2) rest

/-- The loop state right after the preamble of `_run_verification_async`
(lines 135-178): job set to PROCESSING with `total_sentences` recorded,
all local counters zero, no rows yet. -/
def initial_loop_state (init : VerificationJobState)
    (sentences : List SentenceData) : LoopState :=
  { job := { init with
      status := VerificationStatus.PROCESSING
      total_sentences := sentences.length }
    rows := [], validated_count := 0, uncertain_count := 0,
    incorrect_count := 0, error_count := 0 }

/-- Embeds `_run_verification_async` (lines 117-279), effects as oracles: set the
job to PROCESSING, record `total_sentences`, run the sentence loop from a
zero counter state, then mark COMPLETED with `progress = 1.0`
(timestamps are not modelled). -/
def run_verification (job_id : String) (init : VerificationJobState)
    (sentences : List SentenceData)
    (outcomes : List (Except String VerificationResult)) : LoopState :=
  let st := run_loop_from job_id 0 (initial_loop_state init sentences)
    (sentences.zip outcomes)
  { st with job := { st.job with
      status := VerificationStatus.COMPLETED
      progress := 1 } }

/-- The sequence of job states a job passes through (each persisted
`commit` writes one of them): the PROCESSING states along the loop followed
by the terminal COMPLETED state. -/
def job_trace (job_id : String) (init : VerificationJobState)
    (sentences : List SentenceData)
    (outcomes : List (Except String VerificationResult)) :
    List VerificationJobState :=
  (loop_states_from job_id 0 (initial_loop_state init sentences)
      (sentences.zip outcomes)).map
      (fun st => st.job)
    ++ [(run_verification job_id init sentences outcomes).job]

/-- A `Document` row as touched by `_index_document_async`.  Modelled from
the spec: `app/db/models.py` is not in the sources; §3 lists identity, the
`indexed` flag and page count (`indexed_at` is not modelled). -/
structure Document where
  id : Nat
  indexed : Bool
  original_filename : String
  document_type : String
  page_count : Nat
deriving DecidableEq, Repr

/-- A `DocumentChunk` row as constructed at `document_tasks.py` lines
204-215.  Modelled from the spec: `app/db/models.py` is not in the
sources; the fields are those assigned at the construction site. -/
structure DocumentChunkRow where
  document_id : Nat
  chunk_index : Nat
  content : String
  page_number : Option Int
  start_char : Option Int
  end_char : Option Int
deriving DecidableEq, Repr

/-- One Weaviate object written by `vector_store.index_chunks`
(lines 179-188: the stored properties; the embedding vector is external). -/
structure EvidenceRec where
  content : String
  document_id : Nat
  chunk_index : Nat
  page_number : Option Int
  start_char : Option Int
  end_char : Option Int
  filename : String
  document_type : String
deriving DecidableEq, Repr

/-- One chunk produced by the external chunker
(`processor.process_document_for_indexing`). -/
structure ProcessedChunk where
  content : String
  page_number : Option Int
  start_char : Option Int
  end_char : Option Int
deriving DecidableEq, Repr

/-- The persistent state `_index_document_async` reads and writes: the
document row under the lock, its relational chunk rows, and the evidence
store. -/
structure IndexDB where
  doc : Option Document
  chunk_rows : List DocumentChunkRow
  evidence : List EvidenceRec
deriving DecidableEq, Repr

/-- The result dict of `_index_document_async` (the `document_id` echo is
dropped; `chunks_indexed` is absent in the `already_processing` case). -/
structure IndexResult where
  status : String
  chunks_indexed : Option Nat
deriving DecidableEq, Repr

/-- The `DocumentChunk` construction at lines 204-215. -/
def mkChunkRow (docId : Nat) (idx : Nat) (c : ProcessedChunk) :
    DocumentChunkRow :=
  { document_id := docId, chunk_index := idx, content := c.content,
    page_number := c.page_number, start_char := c.start_char,
    end_char := c.end_char }

/-- The Weaviate payload built at lines 222-231 and written by
`index_chunks`. -/
def mkEvidenceRec (docId : Nat) (filename document_type : String)
    (row : DocumentChunkRow) : EvidenceRec :=
  { content := row.content, document_id := docId,
    chunk_index := row.chunk_index, page_number := row.page_number,
    start_char := row.start_char, end_char := row.end_char,
    filename := filename, document_type := document_type }

/-- Number of stored relational chunk rows of one document. -/
def countDocChunks (st : IndexDB) (docId : Nat) : Nat :=
  (st.chunk_rows.filter fun r => r.document_id == docId).length

/-- Embeds `document_tasks._index_document_async` (lines 132-264), effects as
explicit state.  `lock_available` is the outcome of the non-blocking
`FOR UPDATE NOWAIT` acquisition: when the row lock is held elsewhere the
wrapped `LockNotAvailable` error is caught and `already_processing`
returns at once, before any read or write.  Holding the lock: a missing
document raises, an `indexed` document returns `already_indexed` with
`chunks_indexed = 0` and no writes; otherwise the document's existing
chunk rows are deleted, fresh rows are built from the chunker output
`processed`, matching evidence records are written, and the document is
marked `indexed` with the chunker's page count `pc` — all committed as one
unit of work. -/
def index_document_async (lock_available : Bool) (st : IndexDB)
    (processed : List ProcessedChunk) (pc : Nat) :
    IndexDB × Except String IndexResult :=
  if !lock_available then
    (st, .ok { status := "already_processing", chunks_indexed := none })
  else
    match st.doc with
    | none => (st, .error "Document not found")
    | some document =>
      if document.indexed then
        (st, .ok { status := "already_indexed", chunks_indexed := some 0 })
      else
        let cleared := st.chunk_rows.filter
          fun r => r.document_id != document.id
        let chunk_records := processed.enum.map
          fun p => mkChunkRow document.id p.1 p.2
        let new_evidence := chunk_records.map
          (mkEvidenceRec document.id document.original_filename
            document.document_type)
        ({ doc := some { document with indexed := true, page_count := pc }
           chunk_rows := cleared ++ chunk_records
           evidence := st.evidence ++ new_evidence },
         .ok { status := "completed",
               chunks_indexed := some chunk_records.length })

/-- Retry parameters of the `index_document` Celery task decorator
(`document_tasks.py` lines 82-93): `max_retries=5`. -/
def celery_max_retries : Nat := 5

/-- Retry parameters of the `index_document` Celery task decorator:
`retry_backoff_max=60`. -/
def celery_retry_backoff_max : Nat := 60

/-- The exponential backoff base before the `k`-th retry.  Modelled from
the spec: the retry loop itself is Celery library behavior configured by
the decorator (`retry_backoff=True`, `retry_backoff_max=60`), matching the
spec's "exponential backoff, bounded" — `min(2^k, 60)` seconds. -/
def backoff_base (k : Nat) : Nat :=
  min (2 ^ k) celery_retry_backoff_max

/-- Outcome of the whole task including its retries:
`DocumentAlreadyProcessingError` past the retry budget surfaces as a
scheduling failure. -/
inductive TaskOutcome where
  | succeeded (r : IndexResult)
  | failed (e : String)
  | schedulingFailure
deriving DecidableEq, Repr

/-- Embeds `index_document_task` (lines 94-129) under Celery's
`autoretry_for=(DocumentAlreadyProcessingError,)` policy.  Modelled from
the spec: the driver loop is Celery library behavior — an
`already_processing` result raises `DocumentAlreadyProcessingError`, which
is retried after a jittered backoff delay (`retry_jitter=True` draws the
delay from `[0, base]`, modelled by the `jitter` function) while retry
budget remains, else it surfaces.  Returns the final outcome, the number
of attempts made, and the list of backoff delays slept. -/
def index_task_run (jitter : Nat → Nat) (lock_at : Nat → Bool)
    (processed : List ProcessedChunk) (pc : Nat) :
    Nat → Nat → IndexDB → TaskOutcome × Nat × List Nat
  | budget, k, st =>
    match index_document_async (lock_at k) st processed pc with
    | (_, .error e) => (.failed e, 1, [])
    | (st2, .ok res) =>
      if res.status = "already_processing" then
        match budget with
        | 0 => (.schedulingFailure, 1, [])
        | b + 1 =>
          let rest := index_task_run jitter lock_at processed pc b (k + 1) st2
          (rest.1, rest.2.1 + 1, jitter (backoff_base k) :: rest.2.2)
      else (.succeeded res, 1, [])

/-- The full `index_document` task: first attempt plus up to
`celery_max_retries` retries. -/
def index_document_task (jitter : Nat → Nat) (lock_at : Nat → Bool)
    (st : IndexDB) (processed : List ProcessedChunk) (pc : Nat) :
    TaskOutcome × Nat × List Nat :=
  index_task_run jitter lock_at processed pc celery_max_retries 0 st

/-- Concrete unindexed document, used in witnesses. -/
def demoDocument : Document :=
  { id := 1, indexed := false, original_filename := "a.pdf",
    document_type := "main", page_count := 0 }

/-- Concrete database state holding the unindexed demo document, used in
witnesses. -/
def demoIndexDB : IndexDB :=
  { doc := some demoDocument, chunk_rows := [], evidence := [] }

/-- Concrete chunker output with three chunks, used in witnesses. -/
def demoProcessed : List ProcessedChunk :=
  [{ content := "p1", page_number := some 1, start_char := some 0,
     end_char := some 2 },
   { content := "p2", page_number := some 1, start_char := some 2,
     end_char := some 4 },
   { content := "p3", page_number := some 2, start_char := some 4,
     end_char := some 6 }]

/-- Concrete successful verification result, used in witnesses. -/
def demoVR : VerificationResult :=
  { validation_result := ValidationResult.VALIDATED, confidence_score := 1,
    reasoning := "ok", citations := [] }

/-- Concrete sentence list of ten sentences, used in witnesses. -/
def demoSentences : List SentenceData :=
  (List.range 10).map fun i =>
    { index := i, content := "s", page_number := none, start_char := none,
      end_char := none }

/-- Concrete outcome list in which sentence #4 (index 3) raises during
classification and the other nine succeed, used in witnesses. -/
def demoOutcomes : List (Except String VerificationResult) :=
  (List.range 10).map fun i =>
    if i = 3 then .error "classifier raised" else .ok demoVR

/-- Concrete one-sentence list, used in counterexamples. -/
def demoSentenceOnly : List SentenceData :=
  [{ index := 0, content := "s", page_number := none, start_char := none,
     end_char := none }]

/-- Concrete outcome list whose only sentence raises, used in
counterexamples. -/
def demoFailOnly : List (Except String VerificationResult) :=
  [.error "boom"]

/-- Concrete fresh job state, used in witnesses. -/
def demoInitJob : VerificationJobState :=
  { status := VerificationStatus.PENDING, total_sentences := 0,
    verified_sentences := 0, progress := 0, validated_count := 0,
    uncertain_count := 0, incorrect_count := 0 }

/-- Claim C6: every semantic search result carrying a distance `d` reports
`similarity = 1 - d`, only results with `similarity ≥ min_similarity` are
returned, results with absent distance are excluded from the semantic
results, while hybrid search retains every result — an absent-distance hit
with similarity `0.0` and tag `hybrid_keyword_only`, a distance-`d` hit with
similarity `1 - d` and tag `hybrid`. -/
theorem C6_similarity_conversion (min_similarity : ℚ) (objs : List SearchObj) :
    (∀ r ∈ search_similar min_similarity objs,
        ∃ obj ∈ objs, ∃ d : ℚ, obj.distance = some d ∧
          r.similarity = 1 - d ∧ min_similarity ≤ r.similarity)
    ∧ search_similar min_similarity objs
        = search_similar min_similarity (objs.filter (fun o => o.distance.isSome))
    ∧ (search_hybrid objs).length = objs.length
    ∧ (∀ r ∈ search_hybrid objs, ∃ obj ∈ objs,
          (obj.distance = none → r.similarity = 0 ∧ r.source = "hybrid_keyword_only")
          ∧ ∀ d : ℚ, obj.distance = some d → r.similarity = 1 - d ∧ r.source = "hybrid")
    ∧ (∀ obj ∈ objs, ∃ r ∈ search_hybrid objs,
          (obj.distance = none → r.similarity = 0 ∧ r.source = "hybrid_keyword_only")
          ∧ ∀ d : ℚ, obj.distance = some d → r.similarity = 1 - d ∧ r.source = "hybrid") := by
  refine ⟨?_, ?_, ?_, ?_, ?_⟩
  · intro r hr
    rcases List.mem_filterMap.mp hr with ⟨obj, hobj, heq⟩
    refine ⟨obj, hobj, ?_⟩
    rcases hd : obj.distance with _ | d
    · rw [hd] at heq; simp at heq
    · rw [hd] at heq
      simp only [Option.some.injEq] at heq
      by_cases hle : min_similarity ≤ 1 - d
      · refine ⟨d, rfl, ?_, ?_⟩ <;>
          simp only [hle, if_pos, Option.some.injEq] at heq <;>
          simp [← heq, mkChunk, hle]
      · simp [hle] at heq
  · induction objs with
    | nil => rfl
    | cons o rest ih =>
      rcases hd : o.distance with _ | d
      · simp only [search_similar, List.filterMap_cons, List.filter_cons, hd,
          Option.isSome_none, Bool.false_eq_true, if_false] at ih ⊢
        exact ih
      · by_cases hle : min_similarity ≤ 1 - d <;>
          simp only [search_similar, List.filterMap_cons, List.filter_cons, hd, hle,
            Option.isSome_some, if_true, if_false] at ih ⊢ <;>
          simp only [ih]
  · simp [search_hybrid]
  · intro r hr
    rcases List.mem_map.mp hr with ⟨obj, hobj, heq⟩
    refine ⟨obj, hobj, ?_, ?_⟩
    · intro hd; rw [hd] at heq; simp [← heq, mkChunk]
    · intro d hd; rw [hd] at heq; simp [← heq, mkChunk]
  · intro obj hobj
    refine ⟨_, List.mem_map_of_mem _ hobj, ?_, ?_⟩
    · intro hd; rw [hd]; simp [mkChunk]
    · intro d hd; rw [hd]; simp [mkChunk]

/-- Witness for C6 at a concrete input: the semantic result produced for
`demoObjA` (distance `1/10`) with threshold `1/2` comes from a hit with a
distance, has similarity `1 - 1/10` and passes the threshold. -/
theorem C6_similarity_conversion_witness :
    ∃ obj ∈ [demoObjA, demoObjB], ∃ d : ℚ, obj.distance = some d ∧
      (mkChunk demoObjA (9/10) "semantic").similarity = 1 - d ∧
      (1/2 : ℚ) ≤ (mkChunk demoObjA (9/10) "semantic").similarity :=
  (C6_similarity_conversion (1/2) [demoObjA, demoObjB]).1
    (mkChunk demoObjA (9/10) "semantic")
    (by norm_num [search_similar, demoObjA, demoObjB, List.filterMap_cons])

/-- Counterexample to C1: a well-formed classifier response with verdict
VALIDATED and zero citations, parsed against a non-empty candidate list, is
stored as VALIDATED with an empty citation list — not downgraded to
INCORRECT. -/
theorem C1_counterexample :
    (parse_verification_response (.jsonOk demoValidatedNoCitations)
        [demoChunkLow]).validation_result = ValidationResult.VALIDATED
    ∧ (parse_verification_response (.jsonOk demoValidatedNoCitations)
        [demoChunkLow]).citations = []
    ∧ (parse_verification_response (.jsonOk demoValidatedNoCitations)
        [demoChunkLow]).validation_result ≠ ValidationResult.INCORRECT := by
  refine ⟨rfl, rfl, ?_⟩
  decide

/-- Claim C1 (amended): the no-citation downgrade rule is stated only in the
prompt sent to the classifier; `_parse_verification_response` stores the
verdict exactly as returned, so a response with verdict VALIDATED (or
UNCERTAIN) and no citations is stored with that same verdict and an empty
citation list. -/
theorem C1_no_citation_verdict_kept (chunks : List Chunk) (r : RawResult)
    (hcit : r.citations = []) :
    ((r.validation_result = some "VALIDATED" →
        (parse_verification_response (.jsonOk r) chunks).validation_result
          = ValidationResult.VALIDATED)
      ∧ (r.validation_result = some "UNCERTAIN" →
        (parse_verification_response (.jsonOk r) chunks).validation_result
          = ValidationResult.UNCERTAIN))
    ∧ (parse_verification_response (.jsonOk r) chunks).citations = [] := by
  refine ⟨⟨?_, ?_⟩, ?_⟩
  · intro hv
    have hg : r.validation_result.getD "UNCERTAIN" = "VALIDATED" := by
      rw [hv]; rfl
    simp only [parse_verification_response, parse_result_dict, hg]
    decide
  · intro hv
    have hg : r.validation_result.getD "UNCERTAIN" = "UNCERTAIN" := by
      rw [hv]; rfl
    simp only [parse_verification_response, parse_result_dict, hg]
    decide
  · simp only [parse_verification_response, parse_result_dict, hcit,
      List.filterMap_nil]

/-- Witness for C1 (amended) at a concrete input: the VALIDATED
zero-citation response is stored as VALIDATED with an empty citation
list. -/
theorem C1_no_citation_verdict_kept_witness :
    (parse_verification_response (.jsonOk demoValidatedNoCitations)
        [demoChunkLow]).validation_result = ValidationResult.VALIDATED
    ∧ (parse_verification_response (.jsonOk demoValidatedNoCitations)
        [demoChunkLow]).citations = [] :=
  ⟨(C1_no_citation_verdict_kept [demoChunkLow] demoValidatedNoCitations
      rfl).1.1 rfl,
   (C1_no_citation_verdict_kept [demoChunkLow] demoValidatedNoCitations
      rfl).2⟩

/-- Counterexample to C3: a classifier response in which no JSON object can
be found is recovered as UNCERTAIN, but with confidence `0.5` — not the
confidence `0` the claim states. -/
theorem C3_counterexample :
    (parse_verification_response (.noJson "gibberish") []).validation_result
        = ValidationResult.UNCERTAIN
    ∧ (parse_verification_response (.noJson "gibberish") []).confidence_score
        = 1/2
    ∧ (parse_verification_response (.noJson "gibberish") []).confidence_score
        ≠ 0 := by
  refine ⟨rfl, ?_, ?_⟩ <;>
    norm_num [parse_verification_response, parse_result_dict, pymax, pymin]

/-- Claim C3 (amended): for every classifier response that cannot be parsed
as well-formed structured data (no JSON object found, or
extraction/processing raised), the caller recovers locally with verdict
UNCERTAIN, confidence `0.5`, the raw response text as reasoning, and an
empty citation list; no failure is propagated. -/
theorem C3_malformed_response_recovered (text : String) (chunks : List Chunk) :
    parse_verification_response (.noJson text) chunks
      = { validation_result := ValidationResult.UNCERTAIN
          confidence_score := 1/2
          reasoning := text
          citations := [] }
    ∧ parse_verification_response (.malformed text) chunks
      = { validation_result := ValidationResult.UNCERTAIN
          confidence_score := 1/2
          reasoning := text
          citations := [] } := by
  constructor
  · simp only [parse_verification_response, parse_result_dict,
      List.filterMap_nil, Option.getD_some, VerificationResult.mk.injEq]
    refine ⟨by decide, by norm_num [pymax, pymin], trivial, trivial⟩
  · rfl

/-- Counterexample to C8: with candidate chunks `[demoChunkLow,
demoChunkHigh]` (similarities `1/2 < 9/10`) and a citation matching no
filename, the matcher falls back to the FIRST candidate, whose similarity is
not the highest. -/
theorem C8_counterexample :
    find_matching_chunk demoCitationNoMatch [demoChunkLow, demoChunkHigh]
        = some demoChunkLow
    ∧ demoChunkLow.similarity < demoChunkHigh.similarity := by
  constructor
  · rfl
  · norm_num [demoChunkLow, demoChunkHigh]

/-- Claim C8 (amended): for every citation and non-empty candidate list the
matcher returns a chunk from that list — the first chunk matching by
case-insensitive filename substring and (when the citation carries a page)
exact page equality, else the first candidate chunk as fallback (not
necessarily the highest-scoring one); and every citation stored by
`_parse_verification_response` is built from a chunk of the candidate list
the retrieval stage returned. -/
theorem C8_citation_matcher (citation : RawCitation) (chunks : List Chunk)
    (h : chunks ≠ []) :
    (∃ c, find_matching_chunk citation chunks = some c ∧ c ∈ chunks ∧
      (citationMatches citation c = true ∨
        ((∀ c' ∈ chunks, citationMatches citation c' = false) ∧
          chunks.head? = some c)))
    ∧ ∀ (r : RawResult),
        ∀ cit ∈ (parse_verification_response (.jsonOk r) chunks).citations,
          ∃ rc ∈ r.citations, ∃ mc ∈ chunks, cit = mkCitation rc mc := by
  constructor
  · rcases hf : chunks.find? (fun chunk => citationMatches citation chunk)
      with _ | c
    · cases chunks with
      | nil => exact absurd rfl h
      | cons a as =>
        refine ⟨a, ?_, List.mem_cons_self a as, Or.inr ⟨?_, rfl⟩⟩
        · simp [find_matching_chunk, hf]
        · intro c' hc'
          have := List.find?_eq_none.mp hf c' hc'
          simpa using this
    · refine ⟨c, ?_, List.mem_of_find?_eq_some hf, Or.inl ?_⟩
      · simp [find_matching_chunk, hf]
      · exact List.find?_some hf
  · intro r cit hcit
    simp only [parse_verification_response, parse_result_dict,
      List.mem_filterMap, Option.map_eq_some'] at hcit
    rcases hcit with ⟨rc, hrc, mc, hmc, hbuild⟩
    refine ⟨rc, hrc, mc, ?_, hbuild.symm⟩
    unfold find_matching_chunk at hmc
    rcases hfind : chunks.find? (fun chunk => citationMatches rc chunk)
      with _ | c0
    · rw [hfind] at hmc
      cases chunks with
      | nil => simp at hmc
      | cons a as =>
        simp only [List.head?_cons, Option.some.injEq] at hmc
        rw [← hmc]; exact List.mem_cons_self a as
    · rw [hfind] at hmc
      simp only [Option.some.injEq] at hmc
      rw [← hmc]; exact List.mem_of_find?_eq_some hfind

/-- Witness for C8 (amended) at a concrete input: the matcher applied to the
no-match citation and the two demo chunks returns a member of the list. -/
theorem C8_citation_matcher_witness :
    ∃ c, find_matching_chunk demoCitationNoMatch
        [demoChunkLow, demoChunkHigh] = some c ∧
      c ∈ [demoChunkLow, demoChunkHigh] ∧
      (citationMatches demoCitationNoMatch c = true ∨
        ((∀ c' ∈ [demoChunkLow, demoChunkHigh],
            citationMatches demoCitationNoMatch c' = false) ∧
          ([demoChunkLow, demoChunkHigh] : List Chunk).head? = some c)) :=
  (C8_citation_matcher demoCitationNoMatch [demoChunkLow, demoChunkHigh]
    (by simp)).1

/-- A value is never smaller than its `pymax` with anything. -/
theorem le_pymax_left (a b : ℚ) : a ≤ pymax a b := by
  unfold pymax
  split
  · assumption
  · exact le_refl a

/-- Every element surviving the seen-set dedup loop came from the input
(fold invariant). -/
theorem pyDedup_foldl_mem {κ : Type} [BEq κ] (key : Chunk → κ)
    (l : List Chunk) :
    ∀ (acc : List Chunk × List κ) (c : Chunk),
      c ∈ (l.foldl (pyDedupStep key) acc).1 → c ∈ acc.1 ∨ c ∈ l := by
  induction l with
  | nil => intro acc c h; exact Or.inl h
  | cons a t ih =>
    intro acc c h
    rcases ih (pyDedupStep key acc a) c h with h1 | h1
    · unfold pyDedupStep at h1
      by_cases hc : acc.2.contains (key a)
      · rw [if_pos hc] at h1
        exact Or.inl h1
      · rw [if_neg hc] at h1
        simp only [List.mem_append, List.mem_singleton] at h1
        rcases h1 with h1 | h1
        · exact Or.inl h1
        · rw [h1]
          exact Or.inr (List.mem_cons_self a t)
    · exact Or.inr (List.mem_cons_of_mem a h1)

/-- Every element of the dedup output is an element of its input. -/
theorem pyDedup_subset {κ : Type} [BEq κ] {key : Chunk → κ} {c : Chunk}
    {l : List Chunk} (h : c ∈ pyDedup key l) : c ∈ l := by
  rcases pyDedup_foldl_mem key l ([], []) c h with h1 | h1
  · simp at h1
  · exact h1

/-- Claim C9: every chunk that survives reranking is an input candidate
whose similarity was combined with its rerank score via `max()`, so the
similarity after reranking is never lower than the similarity established
by the earlier retrieval stage. -/
theorem C9_rerank_never_lowers_score (outcome : RerankOutcome)
    (chunks : List Chunk) :
    ∀ r ∈ rerank_chunks outcome chunks, ∃ c ∈ chunks,
      (r = c ∨ ∃ s : ℚ, r = applyRerankScore c s) ∧
      c.similarity ≤ r.similarity := by
  intro r hr
  unfold rerank_chunks at hr
  by_cases hemp : chunks.isEmpty
  · rw [if_pos hemp] at hr
    simp at hr
  · rw [if_neg hemp] at hr
    cases outcome with
    | failed => exact ⟨r, hr, Or.inl rfl, le_refl _⟩
    | cohere results =>
      have hmem := pyDedup_subset hr
      rcases List.mem_filterMap.mp hmem with ⟨p, _, heq⟩
      rcases Option.map_eq_some'.mp heq with ⟨c, hget, hc⟩
      refine ⟨c, List.get?_mem hget, Or.inr ⟨p.2, hc.symm⟩, ?_⟩
      rw [← hc]
      exact le_pymax_left c.similarity p.2
    | embedding scores =>
      have hmem := pyDedup_subset hr
      rcases List.mem_map.mp hmem with ⟨p, hp, heqp⟩
      rw [List.mem_mergeSort] at hp
      rcases List.mem_map.mp hp with ⟨q, hq, heqq⟩
      obtain ⟨cq, sq⟩ := q
      have hcq : cq ∈ chunks := (List.of_mem_zip hq).1
      refine ⟨cq, hcq, Or.inr ⟨sq, ?_⟩, ?_⟩
      · rw [← heqp, ← heqq]
      · rw [← heqp, ← heqq]
        exact le_pymax_left cq.similarity sq

/-- Witness for C9 at a concrete input: the single reranked chunk produced
from `demoChunkLow` with cosine score `2` is an input candidate whose
similarity did not decrease. -/
theorem C9_rerank_never_lowers_score_witness :
    ∃ c ∈ [demoChunkLow],
      (applyRerankScore demoChunkLow 2 = c ∨
        ∃ s : ℚ, applyRerankScore demoChunkLow 2 = applyRerankScore c s) ∧
      c.similarity ≤ (applyRerankScore demoChunkLow 2).similarity :=
  C9_rerank_never_lowers_score (.embedding [2]) [demoChunkLow]
    (applyRerankScore demoChunkLow 2)
    (by simp [rerank_chunks, dedupByContent, pyDedup, pyDedupStep,
      List.mergeSort_singleton])

/-- Claim C10: `verify_sentence` is total at its public interface: a
vector-store failure, a hybrid-search failure or a classifier failure is
caught and becomes an UNCERTAIN result with confidence 0, empty citations
and the error message in the reasoning; when retrieval and reranking yield
no evidence it returns the fixed UNCERTAIN/0/no-citations result without
consulting the classifier (the result is the same for every classifier). -/
theorem C10_verify_sentence_total (s : RetrievalSettings)
    (top_k : Option Nat) (env : VerifyEnv) :
    (∀ e, env.semantic = .error e →
        verify_sentence s top_k env = verification_error_result e)
    ∧ (∀ objs e, env.semantic = .ok objs → env.hybrid = .error e →
        verify_sentence s top_k env = verification_error_result e)
    ∧ (∀ so ho, env.semantic = .ok so → env.hybrid = .ok ho →
        retrieved_candidates s top_k so ho env.rerank = [] →
          verify_sentence s top_k env = no_evidence_result
          ∧ ∀ f, verify_sentence s top_k { env with classifier := f }
              = no_evidence_result)
    ∧ (∀ so ho e, env.semantic = .ok so → env.hybrid = .ok ho →
        retrieved_candidates s top_k so ho env.rerank ≠ [] →
        env.classifier (retrieved_candidates s top_k so ho env.rerank)
            = .error e →
          verify_sentence s top_k env = verification_error_result e) := by
  refine ⟨?_, ?_, ?_, ?_⟩
  · intro e he
    simp [verify_sentence, verify_sentence_body, he]
  · intro objs e hs hh
    simp [verify_sentence, verify_sentence_body, hs, hh]
  · intro so ho hs hh hm
    constructor
    · simp [verify_sentence, verify_sentence_body, hs, hh, hm]
    · intro f
      simp [verify_sentence, verify_sentence_body, hs, hh, hm]
  · intro so ho e hs hh hne hcl
    have hb : verify_sentence_body s top_k env = .error e := by
      unfold verify_sentence_body
      rw [hs, hh]
      simp only
      rw [if_neg (by simpa [List.isEmpty_iff] using hne), hcl]
    simp [verify_sentence, hb]

/-- Witness for C10 at a concrete input: when the semantic query raises
with message `boom`, `verify_sentence` returns the UNCERTAIN error
result carrying that message. -/
theorem C10_verify_sentence_total_witness :
    verify_sentence demoSettings none demoEnvFail
      = verification_error_result "boom" :=
  (C10_verify_sentence_total demoSettings none demoEnvFail).1 "boom" rfl

/-- Claim C4: indexing a document whose `indexed` flag is set returns
`already_indexed` with `chunksIndexed = 0` and performs no writes; indexing
an unindexed document twice sequentially stores `processed.length` chunk
rows for it the first time, and the second call is a no-op returning
`already_indexed`, so the stored chunk count is identical both times. -/
theorem C4_indexing_idempotent (st : IndexDB) (processed : List ProcessedChunk)
    (pc : Nat) (d : Document) (hdoc : st.doc = some d) :
    (d.indexed = true →
      index_document_async true st processed pc
        = (st, .ok { status := "already_indexed", chunks_indexed := some 0 }))
    ∧ (d.indexed = false →
      index_document_async true
          (index_document_async true st processed pc).1 processed pc
        = ((index_document_async true st processed pc).1,
           .ok { status := "already_indexed", chunks_indexed := some 0 })
      ∧ countDocChunks (index_document_async true st processed pc).1 d.id
          = processed.length
      ∧ countDocChunks
          (index_document_async true
            (index_document_async true st processed pc).1 processed pc).1 d.id
          = countDocChunks (index_document_async true st processed pc).1
              d.id) := by
  constructor
  · intro hidx
    simp [index_document_async, hdoc, hidx]
  · intro hidx
    have h1 : (index_document_async true st processed pc).1
        = { doc := some { d with indexed := true, page_count := pc }
            chunk_rows :=
              (st.chunk_rows.filter fun r => r.document_id != d.id)
                ++ processed.enum.map fun p => mkChunkRow d.id p.1 p.2
            evidence := st.evidence
              ++ (processed.enum.map fun p => mkChunkRow d.id p.1 p.2).map
                  (mkEvidenceRec d.id d.original_filename
                    d.document_type) } := by
      simp [index_document_async, hdoc, hidx]
    have h2 : index_document_async true
        (index_document_async true st processed pc).1 processed pc
        = ((index_document_async true st processed pc).1,
           .ok { status := "already_indexed", chunks_indexed := some 0 }) := by
      rw [h1]
      simp [index_document_async]
    have hcount : countDocChunks (index_document_async true st processed pc).1
        d.id = processed.length := by
      rw [h1]
      unfold countDocChunks
      simp only [List.filter_append, List.filter_filter]
      have hnil : st.chunk_rows.filter
          (fun a => (a.document_id == d.id) && (a.document_id != d.id))
          = [] := by
        apply List.filter_eq_nil_iff.mpr
        intro a _
        simp [bne]
      have hall : (processed.enum.map fun p => mkChunkRow d.id p.1 p.2).filter
          (fun r => r.document_id == d.id)
          = processed.enum.map fun p => mkChunkRow d.id p.1 p.2 := by
        apply List.filter_eq_self.mpr
        intro a ha
        rcases List.mem_map.mp ha with ⟨p, _, hp⟩
        rw [← hp]
        simp [mkChunkRow]
      rw [hnil, hall]
      simp [List.enum_length]
    exact ⟨h2, hcount, by rw [h2]⟩

/-- Witness for C4 at a concrete input: a document with three stored
chunks and `indexed = true` — `Index()` returns `already_indexed` with
zero chunks indexed and leaves the state untouched. -/
theorem C4_indexing_idempotent_witness :
    index_document_async true
        { doc := some { demoDocument with indexed := true }
          chunk_rows := (demoProcessed.enum.map
            fun p => mkChunkRow demoDocument.id p.1 p.2)
          evidence := [] } demoProcessed 2
      = ({ doc := some { demoDocument with indexed := true }
           chunk_rows := (demoProcessed.enum.map
             fun p => mkChunkRow demoDocument.id p.1 p.2)
           evidence := [] },
         .ok { status := "already_indexed", chunks_indexed := some 0 }) :=
  (C4_indexing_idempotent
    { doc := some { demoDocument with indexed := true }
      chunk_rows := (demoProcessed.enum.map
        fun p => mkChunkRow demoDocument.id p.1 p.2)
      evidence := [] } demoProcessed 2 { demoDocument with indexed := true }
    rfl).1 rfl

/-- With the row lock held elsewhere at every attempt, the retry driver
makes `budget + 1` attempts, sleeps the jittered exponential backoff
delays, and surfaces a scheduling failure. -/
theorem index_task_run_locked (jitter : Nat → Nat) (lock_at : Nat → Bool)
    (processed : List ProcessedChunk) (pc : Nat)
    (hlock : ∀ k, lock_at k = false) :
    ∀ (budget k : Nat) (st : IndexDB),
      index_task_run jitter lock_at processed pc budget k st
        = (TaskOutcome.schedulingFailure, budget + 1,
           (List.range budget).map fun i => jitter (backoff_base (k + i))) := by
  intro budget
  induction budget with
  | zero =>
    intro k st
    simp [index_task_run, hlock k, index_document_async]
  | succ b ih =>
    intro k st
    rw [index_task_run, hlock k]
    simp only [index_document_async, Bool.not_false, if_true]
    rw [ih (k + 1) st]
    have harith : ∀ i : Nat, k + 1 + i = k + (i + 1) := by
      intro i
      omega
    simp [List.range_succ_eq_map, List.map_map, Function.comp, harith,
      Nat.succ_eq_add_one]

/-- Claim C5: when the per-document non-blocking lock is unavailable,
`_index_document_async` returns `already_processing` at once with no state
change, and the Celery caller retries with jittered exponential backoff
(`min(2^k, 60)` base delays) up to `max_retries = 5` retries, then
surfaces a scheduling failure: under permanent contention the task makes
exactly 6 attempts with the delay schedule `jitter(1), jitter(2),
jitter(4), jitter(8), jitter(16)`, each at most 60. -/
theorem C5_lock_contention (jitter : Nat → Nat) (lock_at : Nat → Bool)
    (st : IndexDB) (processed : List ProcessedChunk) (pc : Nat)
    (hjit : ∀ b, jitter b ≤ b) (hlock : ∀ k, lock_at k = false) :
    (∀ (st2 : IndexDB) (pr2 : List ProcessedChunk) (pc2 : Nat),
        index_document_async false st2 pr2 pc2
          = (st2, .ok { status := "already_processing",
                        chunks_indexed := none }))
    ∧ index_document_task jitter lock_at st processed pc
        = (TaskOutcome.schedulingFailure, celery_max_retries + 1,
           (List.range celery_max_retries).map
             fun k => jitter (backoff_base k))
    ∧ ∀ dl ∈ (index_document_task jitter lock_at st processed pc).2.2,
        dl ≤ celery_retry_backoff_max := by
  refine ⟨?_, ?_, ?_⟩
  · intro st2 pr2 pc2
    rfl
  · unfold index_document_task
    rw [index_task_run_locked jitter lock_at processed pc hlock]
    simp
  · intro dl hdl
    unfold index_document_task at hdl
    rw [index_task_run_locked jitter lock_at processed pc hlock] at hdl
    rcases List.mem_map.mp hdl with ⟨i, _, hi⟩
    rw [← hi]
    exact le_trans (hjit _) (min_le_right _ _)

/-- Witness for C5 at a concrete input: with identity jitter and the lock
always held elsewhere, the task makes 6 attempts with delays
`[1, 2, 4, 8, 16]` and surfaces the scheduling failure. -/
theorem C5_lock_contention_witness :
    index_document_task (fun b => b) (fun _ => false) demoIndexDB
        demoProcessed 2
      = (TaskOutcome.schedulingFailure, 6, [1, 2, 4, 8, 16]) := by
  have h := (C5_lock_contention (fun b => b) (fun _ => false) demoIndexDB
    demoProcessed 2 (fun b => le_refl b) (fun k => rfl)).2.1
  rw [h]
  rfl

/-- The sentence loop appends exactly one row per successful sentence (in
order) and counts exactly one error per failed sentence (fold
invariant). -/
theorem run_loop_from_spec (job_id : String) :
    ∀ (ps : List (SentenceData × Except String VerificationResult))
      (idx : Nat) (st : LoopState),
      (run_loop_from job_id idx st ps).rows
          = st.rows ++ ps.filterMap (fun p =>
              match p.2 with
              | .ok vr => some (mkVerifiedSentence job_id p.1 vr)
              | .error _ => none)
      ∧ (run_loop_from job_id idx st ps).error_count
          = st.error_count + ps.countP (fun p => outcomeFailed p.2)
      ∧ (run_loop_from job_id idx st ps).job.status = st.job.status := by
  intro ps
  induction ps with
  | nil =>
    intro idx st
    simp [run_loop_from]
  | cons p rest ih =>
    intro idx st
    have hih := ih (idx + 1) (process_sentence job_id st idx p.1 p.2)
    have hstep : run_loop_from job_id idx st (p :: rest)
        = run_loop_from job_id (idx + 1)
            (process_sentence job_id st idx p.1 p.2) rest := rfl
    rcases hoc : p.2 with e | vr
    · refine ⟨?_, ?_, ?_⟩
      · rw [hstep, hih.1]
        simp [process_sentence, hoc, List.filterMap_cons]
      · rw [hstep, hih.2.1]
        simp only [process_sentence, hoc, List.countP_cons, outcomeFailed]
        simp
        omega
      · rw [hstep, hih.2.2]
        simp [process_sentence, hoc]
    · refine ⟨?_, ?_, ?_⟩
      · rw [hstep, hih.1]
        simp [process_sentence, hoc, List.filterMap_cons]
      · rw [hstep, hih.2.1]
        simp [process_sentence, hoc, List.countP_cons, outcomeFailed]
      · rw [hstep, hih.2.2]
        simp [process_sentence, hoc]

/-- Claim C2: per-sentence failure isolation — every verification job
reaches COMPLETED; the stored `VerifiedSentence` rows are exactly one row
per successfully classified sentence (a failed sentence produces no row),
and the error counter counts exactly the failed sentences. -/
theorem C2_sentence_failure_isolated (job_id : String)
    (init : VerificationJobState) (sentences : List SentenceData)
    (outcomes : List (Except String VerificationResult)) :
    (run_verification job_id init sentences outcomes).job.status
        = VerificationStatus.COMPLETED
    ∧ (run_verification job_id init sentences outcomes).rows
        = (sentences.zip outcomes).filterMap (fun p =>
            match p.2 with
            | .ok vr => some (mkVerifiedSentence job_id p.1 vr)
            | .error _ => none)
    ∧ (run_verification job_id init sentences outcomes).error_count
        = (sentences.zip outcomes).countP (fun p => outcomeFailed p.2) := by
  refine ⟨rfl, ?_, ?_⟩
  · have h := (run_loop_from_spec job_id (sentences.zip outcomes) 0
      (initial_loop_state init sentences)).1
    simpa [run_verification, initial_loop_state] using h
  · have h := (run_loop_from_spec job_id (sentences.zip outcomes) 0
      (initial_loop_state init sentences)).2.1
    simpa [run_verification, initial_loop_state] using h

/-- Witness for C2 at the claim's concrete scenario: ten sentences of
which #4 (index 3) raises during classification — the job reaches
COMPLETED with 9 rows and an error count of 1. -/
theorem C2_sentence_failure_isolated_witness :
    (run_verification "job" demoInitJob demoSentences demoOutcomes).job.status
        = VerificationStatus.COMPLETED
    ∧ (run_verification "job" demoInitJob demoSentences
        demoOutcomes).rows.length = 9
    ∧ (run_verification "job" demoInitJob demoSentences
        demoOutcomes).error_count = 1 := by
  have h := C2_sentence_failure_isolated "job" demoInitJob demoSentences
    demoOutcomes
  refine ⟨h.1, ?_, ?_⟩
  · rw [h.2.1]
    rfl
  · rw [h.2.2]
    rfl

/-- The first state of the loop-state trace is the starting state. -/
theorem loop_states_from_head (job_id : String)
    (ps : List (SentenceData × Except String VerificationResult))
    (idx : Nat) (st : LoopState) :
    (loop_states_from job_id idx st ps).head? = some st := by
  cases ps <;> rfl

/-- One loop iteration preserves the job invariants: the total is
unchanged, the verified counter stays at most one past the index, progress
stays equal to `verified / total`, and progress never decreases. -/
theorem process_sentence_inv (job_id : String) (total : Nat) (st : LoopState)
    (idx : Nat) (sd : SentenceData) (oc : Except String VerificationResult)
    (htot : st.job.total_sentences = total)
    (hv : st.job.verified_sentences ≤ idx)
    (hp : st.job.progress = (st.job.verified_sentences : ℚ) / (total : ℚ)) :
    (process_sentence job_id st idx sd oc).job.total_sentences = total
    ∧ (process_sentence job_id st idx sd oc).job.verified_sentences ≤ idx + 1
    ∧ (process_sentence job_id st idx sd oc).job.progress
        = ((process_sentence job_id st idx sd oc).job.verified_sentences : ℚ)
            / (total : ℚ)
    ∧ st.job.progress ≤ (process_sentence job_id st idx sd oc).job.progress
    := by
  rcases oc with e | vr
  · refine ⟨by simp [process_sentence, htot], ?_, by simp [process_sentence, hp],
      by simp [process_sentence]⟩
    simp only [process_sentence]
    omega
  · refine ⟨by simp [process_sentence, htot], by simp [process_sentence], ?_, ?_⟩
    · simp only [process_sentence, htot]
      norm_cast
    · simp only [process_sentence, htot, hp]
      by_cases htz : total = 0
      · subst htz
        simp
      · have hpos : (0 : ℚ) < (total : ℚ) := by
          exact_mod_cast Nat.pos_of_ne_zero htz
        exact (div_le_div_iff_of_pos_right hpos).mpr
          (by exact_mod_cast Nat.le_succ_of_le hv)

/-- Every state along the loop keeps the job invariants: total unchanged,
`verified_sentences` bounded by the number of processed sentences, and
`progress = verified_sentences / total`. -/
theorem loop_states_invariant (job_id : String) (total : Nat) :
    ∀ (ps : List (SentenceData × Except String VerificationResult))
      (idx : Nat) (st : LoopState),
      st.job.total_sentences = total →
      st.job.verified_sentences ≤ idx →
      st.job.progress = (st.job.verified_sentences : ℚ) / (total : ℚ) →
      ∀ stl ∈ loop_states_from job_id idx st ps,
        stl.job.total_sentences = total
        ∧ stl.job.verified_sentences ≤ idx + ps.length
        ∧ stl.job.progress
            = (stl.job.verified_sentences : ℚ) / (total : ℚ) := by
  intro ps
  induction ps with
  | nil =>
    intro idx st htot hv hp stl hstl
    simp only [loop_states_from, List.mem_singleton] at hstl
    subst hstl
    exact ⟨htot, by simpa using hv, hp⟩
  | cons p rest ih =>
    intro idx st htot hv hp stl hstl
    have hstep : loop_states_from job_id idx st (p :: rest)
        = st :: loop_states_from job_id (idx + 1)
            (process_sentence job_id st idx p.1 p.2) rest := rfl
    rw [hstep] at hstl
    have hinv := process_sentence_inv job_id total st idx p.1 p.2 htot hv hp
    rcases List.mem_cons.mp hstl with h | h
    · subst h
      refine ⟨htot, ?_, hp⟩
      simp only [List.length_cons]
      omega
    · have hrec := ih (idx + 1) (process_sentence job_id st idx p.1 p.2)
        hinv.1 hinv.2.1 hinv.2.2.1 stl h
      refine ⟨hrec.1, ?_, hrec.2.2⟩
      have := hrec.2.1
      simp only [List.length_cons]
      omega

/-- The persisted progress values along the loop are non-decreasing. -/
theorem loop_states_chain (job_id : String) (total : Nat) :
    ∀ (ps : List (SentenceData × Except String VerificationResult))
      (idx : Nat) (st : LoopState),
      st.job.total_sentences = total →
      st.job.verified_sentences ≤ idx →
      st.job.progress = (st.job.verified_sentences : ℚ) / (total : ℚ) →
      (loop_states_from job_id idx st ps).Chain'
        (fun a b => a.job.progress ≤ b.job.progress) := by
  intro ps
  induction ps with
  | nil =>
    intro idx st _ _ _
    exact List.chain'_singleton st
  | cons p rest ih =>
    intro idx st htot hv hp
    have hstep : loop_states_from job_id idx st (p :: rest)
        = st :: loop_states_from job_id (idx + 1)
            (process_sentence job_id st idx p.1 p.2) rest := rfl
    rw [hstep]
    have hinv := process_sentence_inv job_id total st idx p.1 p.2 htot hv hp
    apply List.chain'_cons'.mpr
    constructor
    · intro y hy
      rw [loop_states_from_head] at hy
      have hyeq : process_sentence job_id st idx p.1 p.2 = y := by
        simpa using hy
      rw [← hyeq]
      exact hinv.2.2.2
    · exact ih (idx + 1) (process_sentence job_id st idx p.1 p.2)
        hinv.1 hinv.2.1 hinv.2.2.1

/-- The final loop state is the last state of the loop-state trace (so in
particular one of them). -/
theorem run_loop_from_mem_states (job_id : String) :
    ∀ (ps : List (SentenceData × Except String VerificationResult))
      (idx : Nat) (st : LoopState),
      run_loop_from job_id idx st ps ∈ loop_states_from job_id idx st ps := by
  intro ps
  induction ps with
  | nil =>
    intro idx st
    simp [run_loop_from, loop_states_from]
  | cons p rest ih =>
    intro idx st
    exact List.mem_cons_of_mem _ (ih (idx + 1) _)

/-- When no sentence fails, the loop ends with `verified_sentences` equal
to the number of sentences processed. -/
theorem run_loop_from_verified_all_ok (job_id : String) :
    ∀ (ps : List (SentenceData × Except String VerificationResult))
      (idx : Nat) (st : LoopState),
      (∀ p ∈ ps, outcomeFailed p.2 = false) →
      (run_loop_from job_id idx st ps).job.verified_sentences
        = if ps.isEmpty then st.job.verified_sentences
          else idx + ps.length := by
  intro ps
  induction ps with
  | nil =>
    intro idx st _
    simp [run_loop_from]
  | cons p rest ih =>
    intro idx st hall
    have hok : outcomeFailed p.2 = false := hall p (List.mem_cons_self p rest)
    rcases hoc : p.2 with e | vr
    · rw [hoc] at hok
      simp [outcomeFailed] at hok
    · have hstep : run_loop_from job_id idx st (p :: rest)
          = run_loop_from job_id (idx + 1)
              (process_sentence job_id st idx p.1 p.2) rest := rfl
      rw [hstep, ih (idx + 1) _ (fun q hq => hall q (List.mem_cons_of_mem p hq))]
      have hvrf : (process_sentence job_id st idx p.1 p.2).job.verified_sentences
          = idx + 1 := by
        simp [process_sentence, hoc]
      rcases rest with _ | ⟨q, rest'⟩
      · simpa using hvrf
      · simp only [List.isEmpty_cons, List.length_cons]
        rw [if_neg Bool.false_ne_true, if_neg Bool.false_ne_true]
        omega

/-- Counterexample to C7: a one-sentence job whose sentence raises still
ends COMPLETED with `progress = 1.0`, but `verified_sentences = 0` and
`total_sentences = 1`, so the persisted progress does not equal
`verified_sentences / total_sentences` once the job completes. -/
theorem C7_counterexample :
    (run_verification "job" demoInitJob demoSentenceOnly
        demoFailOnly).job.progress = 1
    ∧ (run_verification "job" demoInitJob demoSentenceOnly
        demoFailOnly).job.verified_sentences = 0
    ∧ (run_verification "job" demoInitJob demoSentenceOnly
        demoFailOnly).job.total_sentences = 1
    ∧ (run_verification "job" demoInitJob demoSentenceOnly
        demoFailOnly).job.status = VerificationStatus.COMPLETED
    ∧ (run_verification "job" demoInitJob demoSentenceOnly
        demoFailOnly).job.progress
        ≠ ((run_verification "job" demoInitJob demoSentenceOnly
              demoFailOnly).job.verified_sentences : ℚ)
            / ((run_verification "job" demoInitJob demoSentenceOnly
                  demoFailOnly).job.total_sentences : ℚ) := by
  refine ⟨rfl, rfl, rfl, rfl, ?_⟩
  show (1 : ℚ) ≠ ((0 : Nat) : ℚ) / ((1 : Nat) : ℚ)
  norm_num

/-- Claim C7 (amended): across a single job the persisted `progress` is
non-decreasing and ends at exactly `1.0` on COMPLETED;
`verified_sentences ≤ total_sentences` holds at every persisted state;
`progress = verified_sentences / total_sentences` holds at every state the
loop persists (the final COMPLETED state instead forces `progress = 1.0`,
which coincides with `verified/total` whenever no trailing sentence
failed — in particular `verified_sentences = total_sentences` for
error-free jobs). -/
theorem C7_progress_invariants (job_id : String)
    (init : VerificationJobState) (sentences : List SentenceData)
    (outcomes : List (Except String VerificationResult))
    (hv0 : init.verified_sentences = 0) (hp0 : init.progress = 0) :
    (job_trace job_id init sentences outcomes).Chain'
        (fun a b => a.progress ≤ b.progress)
    ∧ (∀ j ∈ job_trace job_id init sentences outcomes,
        j.verified_sentences ≤ sentences.length)
    ∧ (∀ stl ∈ loop_states_from job_id 0 (initial_loop_state init sentences)
          (sentences.zip outcomes),
        stl.job.progress
          = (stl.job.verified_sentences : ℚ) / (sentences.length : ℚ))
    ∧ (run_verification job_id init sentences outcomes).job.progress = 1
    ∧ (run_verification job_id init sentences outcomes).job.status
        = VerificationStatus.COMPLETED
    ∧ ((∀ p ∈ sentences.zip outcomes, outcomeFailed p.2 = false) →
        (run_verification job_id init sentences outcomes).job.verified_sentences
          = (sentences.zip outcomes).length) := by
  set st0 := initial_loop_state init sentences with hst0
  have htot : st0.job.total_sentences = sentences.length := rfl
  have hv : st0.job.verified_sentences ≤ 0 := by
    show init.verified_sentences ≤ 0
    omega
  have hp : st0.job.progress
      = (st0.job.verified_sentences : ℚ) / (sentences.length : ℚ) := by
    show init.progress = (init.verified_sentences : ℚ) / (sentences.length : ℚ)
    rw [hp0, hv0]
    simp
  have hinv := loop_states_invariant job_id sentences.length
    (sentences.zip outcomes) 0 st0 htot hv hp
  have hzlen : (sentences.zip outcomes).length ≤ sentences.length := by
    rw [List.length_zip]
    exact min_le_left _ _
  have hfin_mem := run_loop_from_mem_states job_id (sentences.zip outcomes)
    0 st0
  have hfinal := hinv _ hfin_mem
  refine ⟨?_, ?_, ?_, rfl, rfl, ?_⟩
  · unfold job_trace
    apply List.chain'_append.mpr
    refine ⟨?_, List.chain'_singleton _, ?_⟩
    · apply (List.chain'_map (fun st : LoopState => st.job)).mpr
      exact loop_states_chain job_id sentences.length
        (sentences.zip outcomes) 0 st0 htot hv hp
    · intro x hx y hy
      have hy1 : (run_verification job_id init sentences outcomes).job = y := by
        simpa using hy
      rw [List.getLast?_map] at hx
      rcases Option.map_eq_some'.mp (Option.mem_def.mp hx) with ⟨stl, hl, hfx⟩
      have hmem : stl ∈ loop_states_from job_id 0 st0
          (sentences.zip outcomes) := by
        rcases List.mem_getLast?_eq_getLast (Option.mem_def.mpr hl)
          with ⟨hne, heq⟩
        rw [heq]
        exact List.getLast_mem hne
      have hstl := hinv stl hmem
      have hyprog : y.progress = 1 := by
        rw [← hy1]
        rfl
      rw [hyprog, ← hfx, hstl.2.2]
      rcases Nat.eq_zero_or_pos sentences.length with hz | hpos
      · rw [hz]
        simp
      · apply div_le_one_of_le
        · exact_mod_cast le_trans hstl.2.1 (by simpa using hzlen)
        · exact_mod_cast Nat.zero_le _
  · intro j hj
    unfold job_trace at hj
    rcases List.mem_append.mp hj with h | h
    · rcases List.mem_map.mp h with ⟨stl, hstl, hjeq⟩
      have := (hinv stl hstl).2.1
      rw [← hjeq]
      omega
    · have hj1 : j = (run_verification job_id init sentences outcomes).job := by
        simpa using h
      rw [hj1]
      show (run_loop_from job_id 0 st0
        (sentences.zip outcomes)).job.verified_sentences ≤ sentences.length
      have := hfinal.2.1
      omega
  · intro stl hstl
    exact (hinv stl hstl).2.2
  · intro hall
    have h := run_loop_from_verified_all_ok job_id (sentences.zip outcomes)
      0 st0 hall
    show (run_loop_from job_id 0 st0
      (sentences.zip outcomes)).job.verified_sentences
        = (sentences.zip outcomes).length
    rw [h]
    rcases hz : sentences.zip outcomes with _ | ⟨q, rest⟩
    · simpa [hst0, initial_loop_state] using hv0
    · simp

/-- Witness for C7 (amended) at a concrete input: the ten-sentence demo
job ends COMPLETED with progress exactly 1. -/
theorem C7_progress_invariants_witness :
    (run_verification "job" demoInitJob demoSentences
        demoOutcomes).job.progress = 1
    ∧ (run_verification "job" demoInitJob demoSentences
        demoOutcomes).job.status = VerificationStatus.COMPLETED :=
  ⟨(C7_progress_invariants "job" demoInitJob demoSentences demoOutcomes
      rfl rfl).2.2.2.1,
   (C7_progress_invariants "job" demoInitJob demoSentences demoOutcomes
      rfl rfl).2.2.2.2.1⟩

end Certify
